import Mathlib

/-!
Verification development for the artalyze-backend daily-puzzle core.

The definitions below are a shallow embedding of the scheduling and
player-session logic of the repository:

* UTC instants are modelled as milliseconds since the Unix epoch
  (a `Nat`; all dates of interest are after 1970), exactly the value
  carried by a JavaScript `Date`.  The embedding assumes the server
  process runs with a UTC local timezone, so `getMonth`, `setDate` and
  friends agree with their UTC counterparts.
* The Mongo collection of PuzzleDay documents is modelled as a function
  from the `scheduledDate` instant to the optional list of pairs stored
  under that exact instant, mirroring the `findOne({scheduledDate: d})`
  exact-equality queries used by the routes.
* The per-user `Stats` document is a structure with the schema defaults
  of `src/models/Stats.js`; route handlers become pure functions from
  the fetched document (and the request data) to the saved document.
-/

namespace Artalyze

/-! ## Time arithmetic -/

def msPerHour : Nat := 3600000

def msPerDay : Nat := 86400000

/-- JavaScript `Date.prototype.setUTCHours(h, m, s, ms)`: keeps the UTC
day of the instant and replaces the time of day.  An hour count past 23
rolls over into the following day, as it does in JavaScript. -/
def setUTCHours (t h m s ms : Nat) : Nat :=
  (t / msPerDay) * msPerDay + h * msPerHour + m * 60000 + s * 1000 + ms

/-- Days since 1970-01-01 of the proleptic-Gregorian civil date y-m-d
(the Howard Hinnant `days_from_civil` algorithm); valid for dates on or
after the epoch, which covers every date appearing in the routes.  This
is the day number behind `new Date("YYYY-MM-DD")`, whose value is
midnight UTC of that date. -/
def daysFromCivil (y m d : Nat) : Nat :=
  let y' := if m ≤ 2 then y - 1 else y
  let era := y' / 400
  let yoe := y' % 400
  let mp := if 2 < m then m - 3 else m + 9
  let doy := (153 * mp + 2) / 5 + (d - 1)
  let doe := yoe * 365 + yoe / 4 - yoe / 100 + doy
  era * 146097 + doe - 719468

/-- Month (1..12) of the civil date that is `days` days after
1970-01-01 (the inverse direction of the Hinnant algorithm). -/
def civilMonthFromDays (days : Nat) : Nat :=
  let z := days + 719468
  let doe := z % 146097
  let yoe := (doe - doe / 1460 + doe / 36524 - doe / 146096) / 365
  let doy := doe - (365 * yoe + yoe / 4 - yoe / 100)
  let mp := (5 * doy + 2) / 153
  if mp < 10 then mp + 3 else mp - 9

/-- JavaScript `getMonth()` (0-based) of an instant, for a process whose
local timezone is UTC. -/
def getUTCMonth0 (t : Nat) : Nat :=
  civilMonthFromDays (t / msPerDay) - 1

/-! ## Daily-puzzle lookup range (src/controllers/gameController.js, getDailyPuzzle) -/

/-- Start of the query range of `getDailyPuzzle`:
`const startOfDay = new Date(); startOfDay.setUTCHours(5, 0, 0, 0)` —
a hardcoded 05:00 UTC, commented in the source as midnight EST. -/
def getDailyPuzzleStart (now : Nat) : Nat :=
  setUTCHours now 5 0 0 0

/-- End of the query range of `getDailyPuzzle`:
`endOfDay = new Date(startOfDay); endOfDay.setUTCHours(28, 59, 59, 999)`,
i.e. 04:59:59.999 UTC of the following day. -/
def getDailyPuzzleEnd (now : Nat) : Nat :=
  setUTCHours (getDailyPuzzleStart now) 28 59 59 999

/-- Modelled from the spec: the DST-aware civil-day start mandated by
section 4.1 for the daily lookup — local midnight in the US Eastern
reference timezone is 04:00 UTC when daylight saving is in effect and
05:00 UTC otherwise, decided from the month of the current instant.
This is the month rule that the legacy admin upload path
(src/unnamed/part_004) already applies; the daily lookup in the source
has no DST-aware variant, so the reference behavior is taken from the
spec here. -/
def dstAwareMidnightUTC (now : Nat) : Nat :=
  let m0 := getUTCMonth0 now
  if 2 ≤ m0 ∧ m0 ≤ 10 then setUTCHours now 4 0 0 0 else setUTCHours now 5 0 0 0

/-! ## Civil-day-key resolution at the upload call sites -/

/-- The `scheduledDate` instant computed by the current admin upload
paths (src/routes/adminRoutes.js lines 100-101 and 400-401, and
src/routes/statsRoutes.js lines 190-191):
`const date = new Date(scheduledDate); date.setUTCHours(5, 0, 0, 0)` —
a fixed 05:00 UTC for every key, independent of the season and of when
the resolution runs. -/
def resolveScheduledDateFixed (y m d : Nat) : Nat :=
  setUTCHours (daysFromCivil y m d * msPerDay) 5 0 0 0

/-- The `scheduledDate` instant computed by the legacy admin upload path
(src/unnamed/part_004 lines 50-57):
`isDaylightSaving = date.getMonth() >= 2 && date.getMonth() <= 10`, then
`setUTCHours(4,0,0,0)` during daylight saving and `setUTCHours(5,0,0,0)`
otherwise. -/
def resolveScheduledDateDST (y m d : Nat) : Nat :=
  let t := daysFromCivil y m d * msPerDay
  let month0 := getUTCMonth0 t
  if 2 ≤ month0 ∧ month0 ≤ 10 then setUTCHours t 4 0 0 0 else setUTCHours t 5 0 0 0

/-! ## Puzzle store and the append call sites -/

/-- One puzzle round, as pushed by the upload routes. -/
structure ImagePair where
  humanImageURL : String
  aiImageURL : String
  metadata : Option String := none
  deriving DecidableEq

/-- The collection of PuzzleDay documents, keyed by the exact
`scheduledDate` instant, holding the `pairs` array of each document. -/
abbrev Store := Nat → Option (List ImagePair)

/-- The `findOneAndUpdate({scheduledDate: t}, {$push: {pairs: p}},
{upsert: true})` primitive shared by every append call site: if a
document for the instant exists its `pairs` array is extended by `p`,
otherwise a fresh document whose `pairs` array is `[p]` is created.
There is no capacity condition anywhere in the update. -/
def pushPairUpsert (s : Store) (t : Nat) (p : ImagePair) : Store :=
  fun u => if u = t then some ((s t).getD [] ++ [p]) else s u

/-- src/routes/adminRoutes.js lines 721-742, `saveImagePair`: the
automated pipeline append; an unconditional upsert-push of the pair
(with its metadata) onto the `pairs` array of the target date. -/
def saveImagePair (s : Store) (targetDate : Nat)
    (humanImageURL aiImageURL : String) (metadata : Option String) : Store :=
  pushPairUpsert s targetDate ⟨humanImageURL, aiImageURL, metadata⟩

/-- Whether the scan of `findNextAvailableDate` accepts the day at
instant `t`: a document exists with `$size pairs < 5`, or no document
exists at all (src/routes/adminRoutes.js lines 705-711). -/
def dayHasRoom (s : Store) (t : Nat) : Bool :=
  match s t with
  | none => true
  | some ps => ps.length < 5

/-- src/routes/adminRoutes.js lines 693-718, `findNextAvailableDate`:
starting from the 05:00 UTC instant of the current day, scan forward one
day at a time (`targetDate.setDate(targetDate.getDate() + 1)`) until a
day with room is found.  The source loop is `while (!foundDate)` with no
iteration bound; the `fuel` argument below only truncates the model, a
`none` result meaning that the loop is still running after `fuel`
iterations. -/
def findNextAvailableDateFuel (s : Store) (t : Nat) : Nat → Option Nat
  | 0 => none
  | fuel + 1 =>
      if dayHasRoom s t then some t
      else findNextAvailableDateFuel s (t + msPerDay) fuel

/-- The error answered by the explicit upload route when the requested
date is in the past. -/
inductive UploadError where
  | pastDate
  deriving DecidableEq

/-- src/routes/adminRoutes.js lines 389-448 (same code at
src/routes/statsRoutes.js lines 179-238), the explicit admin
`upload-image-pair` route: resolve today and the requested key to their
05:00 UTC instants, answer the past-date error when the requested
instant is before today (returning before any image upload or store
write), and otherwise upsert-push the pair onto the requested day. -/
def uploadImagePairExplicit (now y m d : Nat) (s : Store)
    (humanImageURL aiImageURL : String) : Except UploadError Store :=
  let today := setUTCHours now 5 0 0 0
  let requestedDate := resolveScheduledDateFixed y m d
  if requestedDate < today then .error .pastDate
  else .ok (pushPairUpsert s requestedDate ⟨humanImageURL, aiImageURL, none⟩)

/-! ## Player session state (src/models/Stats.js and its controllers) -/

/-- The per-user Stats document with the schema defaults of
src/models/Stats.js (fields not read by the verified handlers are
omitted).  Civil-day fields are `Option String` because their schema
default is `null`.  `mistakeDistribution` is a total map from mistake
count to occurrence count defaulting to zero, matching the
`(dist[mistakes] || 0) + 1` update in the controller. -/
structure Stats where
  gamesPlayed : Nat := 0
  winPercentage : Nat := 0
  currentStreak : Nat := 0
  maxStreak : Nat := 0
  perfectStreak : Nat := 0
  maxPerfectStreak : Nat := 0
  perfectPuzzles : Nat := 0
  mistakeDistribution : Nat → Nat := fun _ => 0
  mostRecentScore : Option Nat := none
  lastPlayedDate : Option String := none
  lastSelectionMadeDate : Option String := none
  lastTriesMadeDate : Option String := none
  triesRemaining : Nat := 3
  selections : List String := []

/-- src/controllers/gameController.js lines 109-154,
`markAsPlayedToday`: the streak transition run when a completion is
reported.  It updates `currentStreak`, `perfectStreak` and
`lastPlayedDate` only; `maxStreak` and `maxPerfectStreak` are not
touched by this handler. -/
def markAsPlayedToday (today yesterday : String) (isPerfectPuzzle : Bool)
    (stats : Stats) : Stats :=
  let streaks :=
    if stats.lastPlayedDate = some yesterday then
      (stats.currentStreak + 1,
       if isPerfectPuzzle then stats.perfectStreak + 1 else 0)
    else if stats.lastPlayedDate ≠ some today then
      (1, if isPerfectPuzzle then 1 else 0)
    else
      (stats.currentStreak, stats.perfectStreak)
  { stats with
      lastPlayedDate := some today
      currentStreak := streaks.1
      perfectStreak := streaks.2 }

/-- Math.round(100 * p / g) for g > 0: round half away from zero, as
JavaScript rounds the (here non-negative) quotient. -/
def jsRoundPct (p g : Nat) : Nat :=
  (200 * p + g) / (2 * g)

/-- src/controllers/statsController.js lines 62-94, the mutation core of
`updateUserStats`: bump `gamesPlayed`, record the mistake count
(`Math.max(total - correct, 0)`, which is truncated subtraction on
naturals) in `mostRecentScore` and `mistakeDistribution`, run the streak
branches, fold the maxima, count perfect puzzles when
`correctAnswers === totalQuestions`, recompute `winPercentage` and stamp
`lastPlayedDate`. -/
def updateUserStats (today yesterday : String)
    (correctAnswers totalQuestions : Nat) (stats : Stats) : Stats :=
  let gamesPlayed := stats.gamesPlayed + 1
  let mistakes := totalQuestions - correctAnswers
  let mistakeDistribution :=
    fun k => if k = mistakes then stats.mistakeDistribution mistakes + 1
             else stats.mistakeDistribution k
  let isPerfectGame := correctAnswers == totalQuestions
  let streaks :=
    if stats.lastPlayedDate = some yesterday then
      (stats.currentStreak + 1,
       if isPerfectGame then stats.perfectStreak + 1 else 0)
    else if stats.lastPlayedDate ≠ some today then
      (1, if isPerfectGame then 1 else 0)
    else
      (stats.currentStreak, stats.perfectStreak)
  let perfectPuzzles :=
    if isPerfectGame then stats.perfectPuzzles + 1 else stats.perfectPuzzles
  { stats with
      gamesPlayed := gamesPlayed
      mostRecentScore := some mistakes
      mistakeDistribution := mistakeDistribution
      currentStreak := streaks.1
      perfectStreak := streaks.2
      maxStreak := max stats.maxStreak streaks.1
      maxPerfectStreak := max stats.maxPerfectStreak streaks.2
      perfectPuzzles := perfectPuzzles
      winPercentage := jsRoundPct perfectPuzzles gamesPlayed
      lastPlayedDate := some today }

/-- The recordCompletion transition exactly as claim C7 and spec section
4.4 state it, written from the words of the spec for comparison with the
handlers: the three branches on `lastPlayedDate`, then in every case the
two maxima are folded and `lastPlayedDate` becomes the key for today. -/
def specRecordCompletion (today yesterday : String) (wasPerfect : Bool)
    (s : Stats) : Stats :=
  let streaks :=
    if s.lastPlayedDate = some yesterday then
      (s.currentStreak + 1, if wasPerfect then s.perfectStreak + 1 else 0)
    else if s.lastPlayedDate = some today then
      (s.currentStreak, s.perfectStreak)
    else
      (1, if wasPerfect then 1 else 0)
  { s with
      currentStreak := streaks.1
      perfectStreak := streaks.2
      maxStreak := max s.maxStreak streaks.1
      maxPerfectStreak := max s.maxPerfectStreak streaks.2
      lastPlayedDate := some today }

/-- src/controllers/statsController.js lines 178-201, `getSelections`:
when the stored `lastSelectionMadeDate` differs from the key for today,
reset `selections` to the empty list and stamp `lastSelectionMadeDate`
before answering; the answer is the (possibly reset) stored selections.
The first component is the document as saved, the second the response
payload. -/
def getSelections (today : String) (s : Stats) : Stats × List String :=
  if s.lastSelectionMadeDate ≠ some today then
    let s' := { s with selections := [], lastSelectionMadeDate := some today }
    (s', s'.selections)
  else
    (s, s.selections)

/-- The response payload of `checkIfPlayedToday`. -/
structure PlayedTodayResponse where
  hasPlayedToday : Bool
  triesRemaining : Nat
  deriving DecidableEq

/-- src/controllers/gameController.js lines 65-105,
`checkIfPlayedToday` for a logged-in user: when no Stats document
exists, one is created with `triesRemaining: 3` and `lastPlayedDate`
already set to the key for today, and the response says the user has
not played today; otherwise the response compares the stored
`lastPlayedDate` with the key for today.  The first component is the
database state after the call. -/
def checkIfPlayedToday (today : String) (db : Option Stats) :
    Option Stats × PlayedTodayResponse :=
  match db with
  | none =>
      let s : Stats := { triesRemaining := 3, lastPlayedDate := some today }
      (some s, ⟨false, s.triesRemaining⟩)
  | some s =>
      (some s, ⟨s.lastPlayedDate == some today, s.triesRemaining⟩)

/-! ## Concrete demonstration values -/

/-- A concrete pair used by witnesses and counterexamples. -/
def pairDemo : ImagePair := ⟨"h", "a", none⟩

/-- Five pairs: a bucket at the capacity stated by the spec. -/
def fullPairs : List ImagePair := List.replicate 5 pairDemo

/-- The scheduledDate instant of the civil day 2024-06-01 under the
fixed resolver. -/
def tJune1 : Nat := resolveScheduledDateFixed 2024 6 1

/-- A store whose only document is a full (5-pair) bucket for
2024-06-01. -/
def storeFullJune1 : Store :=
  fun u => if u = tJune1 then some fullPairs else none

/-- A store in which every day already holds a full bucket. -/
def storeAllFull : Store := fun _ => some fullPairs

/-! ## Theorems -/

/-- C1 counterexample: with the bucket for 2024-06-01 already holding 5
pairs, `saveImagePair` silently performs the append — the stored array
grows to 6 entries.  The update has no error path at all (the embedding
returns a plain `Store`, as `findOneAndUpdate` with `$push` and
`upsert` cannot fail on capacity), so the claimed rejection with a
capacity error does not exist. -/
theorem c1_counterexample :
    saveImagePair storeFullJune1 tJune1 "h" "a" none tJune1
      = some (fullPairs ++ [pairDemo])
    ∧ (fullPairs ++ [pairDemo]).length = 6 := by
  constructor
  · simp [saveImagePair, pushPairUpsert, storeFullJune1, pairDemo]
  · decide

/-- C1 (amended): every append call site is an unconditional
upsert-push.  The append always succeeds, the target bucket grows by
exactly one pair (so a bucket holding 5 pairs silently grows to 6),
other days are untouched, and no capacity re-check or capacity error
exists at append time; capacity is screened only by the separate
`findNextAvailableDate` pre-scan. -/
theorem c1_append_unconditional (s : Store) (t : Nat)
    (hURL aURL : String) (meta : Option String) :
    saveImagePair s t hURL aURL meta t
      = some ((s t).getD [] ++ [⟨hURL, aURL, meta⟩])
    ∧ ((saveImagePair s t hURL aURL meta t).getD []).length
      = ((s t).getD []).length + 1
    ∧ ∀ u, u ≠ t → saveImagePair s t hURL aURL meta u = s u := by
  refine ⟨?_, ?_, ?_⟩
  · simp [saveImagePair, pushPairUpsert]
  · simp [saveImagePair, pushPairUpsert]
  · intro u hu
    simp [saveImagePair, pushPairUpsert, hu]

/-- Witness for C1 (amended): concrete instance of the untouched-day
part at a day other than the target. -/
theorem c1_append_unconditional_witness :
    saveImagePair storeFullJune1 tJune1 "h" "a" none (tJune1 + 1)
      = storeFullJune1 (tJune1 + 1) :=
  (c1_append_unconditional storeFullJune1 tJune1 "h" "a" none).2.2
    (tJune1 + 1) (by decide)

/-- The failing instant for C2: 2024-06-15T12:00:00Z, a daylight-saving
date in the fixed US Eastern reference timezone. -/
def tBugJune : Nat := daysFromCivil 2024 6 15 * msPerDay + 12 * msPerHour

/-- C2: evaluating the daily-puzzle lookup of
src/controllers/gameController.js at the failing instant
2024-06-15T12:00:00Z.  The code builds its range from a hardcoded
`setUTCHours(5, 0, 0, 0)` — commented in the source as midnight EST —
so the range starts at 05:00 UTC, whereas local midnight of that civil
day in the reference timezone is 04:00 UTC because June is a
daylight-saving month; the month-based rule the claim requires (and
which the legacy part_004 admin path implements) yields 04:00 UTC. -/
theorem c2_daily_lookup_fixed_offset :
    getDailyPuzzleStart tBugJune
      = daysFromCivil 2024 6 15 * msPerDay + 5 * msPerHour
    ∧ dstAwareMidnightUTC tBugJune
      = daysFromCivil 2024 6 15 * msPerDay + 4 * msPerHour
    ∧ getDailyPuzzleStart tBugJune ≠ dstAwareMidnightUTC tBugJune
    ∧ getDailyPuzzleEnd tBugJune
      = daysFromCivil 2024 6 16 * msPerDay + 4 * msPerHour
        + 59 * 60000 + 59 * 1000 + 999 := by
  refine ⟨?_, ?_, ?_, ?_⟩ <;> decide

/-- C3 (amended): the two current upload paths (the explicit admin
upload in adminRoutes/statsRoutes and the date arithmetic of
`findNextAvailableDate`) resolve a civil day key to the single fixed
instant at 05:00 UTC of that day, every time and independently of when
the resolution runs; but the legacy part_004 path resolves the same key
with the month-based daylight-saving rule, and the two resolutions
agree exactly when the key's month is outside the March-November
daylight-saving window — for a key inside that window the call sites
address two different instants, hence two different buckets. -/
theorem c3_resolvers (y m d : Nat) :
    resolveScheduledDateFixed y m d
      = daysFromCivil y m d * msPerDay + 5 * msPerHour
    ∧ resolveScheduledDateDST y m d
      = daysFromCivil y m d * msPerDay
        + (if 2 ≤ getUTCMonth0 (daysFromCivil y m d * msPerDay)
              ∧ getUTCMonth0 (daysFromCivil y m d * msPerDay) ≤ 10
           then 4 else 5) * msPerHour
    ∧ (resolveScheduledDateDST y m d = resolveScheduledDateFixed y m d ↔
        ¬(2 ≤ getUTCMonth0 (daysFromCivil y m d * msPerDay)
          ∧ getUTCMonth0 (daysFromCivil y m d * msPerDay) ≤ 10)) := by
  have hdiv : daysFromCivil y m d * msPerDay / msPerDay = daysFromCivil y m d :=
    Nat.mul_div_cancel _ (by decide : 0 < msPerDay)
  have h5 : resolveScheduledDateFixed y m d
      = daysFromCivil y m d * msPerDay + 5 * msPerHour := by
    simp [resolveScheduledDateFixed, setUTCHours, hdiv]
  have h45 : resolveScheduledDateDST y m d
      = daysFromCivil y m d * msPerDay
        + (if 2 ≤ getUTCMonth0 (daysFromCivil y m d * msPerDay)
              ∧ getUTCMonth0 (daysFromCivil y m d * msPerDay) ≤ 10
           then 4 else 5) * msPerHour := by
    simp only [resolveScheduledDateDST, setUTCHours, hdiv]
    split_ifs with hm <;> simp
  refine ⟨h5, h45, ?_⟩
  rw [h5, h45]
  split_ifs with hm <;> simp [hm, msPerHour]

/-- C3 counterexample: the key 2024-06-01 (June, a daylight-saving
month) resolves to 04:00 UTC on the legacy part_004 path and to
05:00 UTC on the current admin path — two different instants, so the
two call sites address two different buckets of the store. -/
theorem c3_counterexample :
    resolveScheduledDateDST 2024 6 1
      = daysFromCivil 2024 6 1 * msPerDay + 4 * msPerHour
    ∧ resolveScheduledDateFixed 2024 6 1
      = daysFromCivil 2024 6 1 * msPerDay + 5 * msPerHour
    ∧ resolveScheduledDateDST 2024 6 1 ≠ resolveScheduledDateFixed 2024 6 1 := by
  refine ⟨?_, ?_, ?_⟩ <;> decide

/-- Soundness of the forward scan: a returned instant lies a whole
number of days after the start, has room, and every strictly earlier
scanned day is full. -/
theorem findAvail_sound (s : Store) :
    ∀ (fuel t r : Nat), findNextAvailableDateFuel s t fuel = some r →
      ∃ k, r = t + k * msPerDay ∧ dayHasRoom s r = true ∧
        ∀ j, j < k → dayHasRoom s (t + j * msPerDay) = false := by
  intro fuel
  induction fuel with
  | zero =>
      intro t r h
      simp [findNextAvailableDateFuel] at h
  | succ n ih =>
      intro t r h
      rw [findNextAvailableDateFuel] at h
      by_cases hroom : dayHasRoom s t = true
      · rw [if_pos hroom] at h
        obtain rfl : t = r := by simpa using h
        exact ⟨0, by simp, by simpa using hroom,
          fun j hj => absurd hj (Nat.not_lt_zero j)⟩
      · rw [if_neg hroom] at h
        obtain ⟨k, hk, hr, hall⟩ := ih (t + msPerDay) r h
        refine ⟨k + 1, by rw [hk]; ring, hr, ?_⟩
        intro j hj
        cases j with
        | zero =>
            simpa using (Bool.not_eq_true _).mp hroom
        | succ j' =>
            have hz := hall j' (by omega)
            have harith : t + msPerDay + j' * msPerDay
                = t + (j' + 1) * msPerDay := by ring
            rwa [harith] at hz

/-- Completeness of the forward scan: when some day within the fuel
horizon has room, the scan terminates with a result. -/
theorem findAvail_complete (s : Store) :
    ∀ (fuel t k : Nat), k < fuel → dayHasRoom s (t + k * msPerDay) = true →
      (findNextAvailableDateFuel s t fuel).isSome = true := by
  intro fuel
  induction fuel with
  | zero =>
      intro t k hk
      exact absurd hk (Nat.not_lt_zero k)
  | succ n ih =>
      intro t k hk hroom
      rw [findNextAvailableDateFuel]
      by_cases h0 : dayHasRoom s t = true
      · simp [h0]
      · rw [if_neg h0]
        cases k with
        | zero =>
            exact absurd (by simpa using hroom) h0
        | succ k' =>
            have harith : t + (k' + 1) * msPerDay
                = t + msPerDay + k' * msPerDay := by ring
            exact ih (t + msPerDay) k' (by omega) (by rwa [harith] at hroom)

/-- C4: `findNextAvailableDate` returns the earliest day with spare
capacity at or after the scan start (the bucket instant of the current
day): whenever the loop terminates with an instant, that instant is the
start plus a whole number of days, its bucket either has fewer than 5
pairs or does not exist, and every strictly earlier day from the start
on is full; and whenever some day within the fuel horizon has room the
loop does terminate.  In particular — see the witness — when the bucket
of the current day already holds 5 pairs the scan returns the next
calendar day. -/
theorem c4_findNextAvailableDate_earliest (s : Store) (t0 fuel : Nat) :
    (∀ r, findNextAvailableDateFuel s t0 fuel = some r →
      ∃ k, r = t0 + k * msPerDay ∧ dayHasRoom s r = true ∧
        ∀ j, j < k → dayHasRoom s (t0 + j * msPerDay) = false)
    ∧ (∀ k, k < fuel → dayHasRoom s (t0 + k * msPerDay) = true →
      (findNextAvailableDateFuel s t0 fuel).isSome = true) :=
  ⟨fun r h => findAvail_sound s fuel t0 r h,
   fun k hk hroom => findAvail_complete s fuel t0 k hk hroom⟩

/-- Witness for C4, the full-day rollover scenario of the spec: the
bucket for 2024-06-01 already holds 5 pairs and no later bucket exists,
so the scan started at 2024-06-01 returns 2024-06-02, and the returned
day is the earliest one with room. -/
theorem c4_findNextAvailableDate_earliest_witness :
    findNextAvailableDateFuel storeFullJune1 tJune1 10 = some (tJune1 + msPerDay)
    ∧ ∃ k, tJune1 + msPerDay = tJune1 + k * msPerDay
        ∧ dayHasRoom storeFullJune1 (tJune1 + msPerDay) = true
        ∧ ∀ j, j < k → dayHasRoom storeFullJune1 (tJune1 + j * msPerDay) = false :=
  ⟨by decide,
   (c4_findNextAvailableDate_earliest storeFullJune1 tJune1 10).1
     (tJune1 + msPerDay) (by decide)⟩

/-- The scan never terminates on a store in which no day has room: it
keeps advancing one day per iteration for any amount of fuel. -/
theorem findAvail_none_of_noRoom (s : Store)
    (h : ∀ t, dayHasRoom s t = false) :
    ∀ (fuel t : Nat), findNextAvailableDateFuel s t fuel = none := by
  intro fuel
  induction fuel with
  | zero => intro t; rfl
  | succ n ih =>
      intro t
      rw [findNextAvailableDateFuel, h t]
      exact ih (t + msPerDay)

/-- C5 counterexample: on a store in which every day already holds 5
pairs, the scan started at 2024-06-01 is still running after 366 and
after 400 iterations — beyond the 365-iteration cap the claim asserts —
and has produced no result.  The source loop `while (!foundDate)`
(src/routes/adminRoutes.js lines 703-715) carries no iteration counter
and has no error path at all, so no NoAvailableDayKind failure can ever
be raised; the loop simply keeps running. -/
theorem c5_counterexample :
    findNextAvailableDateFuel storeAllFull tJune1 366 = none
    ∧ findNextAvailableDateFuel storeAllFull tJune1 400 = none :=
  ⟨findAvail_none_of_noRoom storeAllFull (fun _ => rfl) 366 tJune1,
   findAvail_none_of_noRoom storeAllFull (fun _ => rfl) 400 tJune1⟩

/-- C5 (amended): the forward scan has no iteration cap and no failure
path; it terminates only by finding a day with room, and on a store
state in which no day has spare capacity it loops without bound — after
any number of iterations it has still produced nothing. -/
theorem c5_scan_unbounded (s : Store) (h : ∀ t, dayHasRoom s t = false)
    (fuel t0 : Nat) : findNextAvailableDateFuel s t0 fuel = none :=
  findAvail_none_of_noRoom s h fuel t0

/-- Witness for C5 (amended): the all-full store at 500 iterations. -/
theorem c5_scan_unbounded_witness :
    findNextAvailableDateFuel storeAllFull tJune1 500 = none :=
  c5_scan_unbounded storeAllFull (fun _ => rfl) 500 tJune1

/-- C6: the explicit admin upload path answers the past-date error for
every requested date whose resolved instant is strictly before the
resolved instant of the current day — returning before any store write,
so the store is untouched (the error branch of the embedding carries no
store at all, as the source returns before `findOneAndUpdate` runs) —
and for a requested date on or after the current day it upsert-pushes
the pair onto exactly the requested bucket. -/
theorem c6_explicit_past_date (now y m d : Nat) (s : Store)
    (hURL aURL : String) :
    (resolveScheduledDateFixed y m d < setUTCHours now 5 0 0 0 →
      uploadImagePairExplicit now y m d s hURL aURL = .error .pastDate)
    ∧ (setUTCHours now 5 0 0 0 ≤ resolveScheduledDateFixed y m d →
      uploadImagePairExplicit now y m d s hURL aURL
        = .ok (pushPairUpsert s (resolveScheduledDateFixed y m d)
            ⟨hURL, aURL, none⟩)
      ∧ pushPairUpsert s (resolveScheduledDateFixed y m d) ⟨hURL, aURL, none⟩
          (resolveScheduledDateFixed y m d)
        = some ((s (resolveScheduledDateFixed y m d)).getD []
            ++ [⟨hURL, aURL, none⟩])) := by
  constructor
  · intro hlt
    simp [uploadImagePairExplicit, hlt]
  · intro hge
    refine ⟨?_, ?_⟩
    · simp [uploadImagePairExplicit, Nat.not_lt.mpr hge]
    · simp [pushPairUpsert]

/-- Witness for C6, the scenario of the spec: with the current instant
inside 2024-06-01, requesting 2024-05-31 is rejected as a past date,
while requesting 2024-06-02 appends the pair to the 2024-06-02
bucket. -/
theorem c6_explicit_past_date_witness :
    uploadImagePairExplicit (tJune1 + 10 * msPerHour) 2024 5 31
        storeFullJune1 "h" "a" = .error .pastDate
    ∧ uploadImagePairExplicit (tJune1 + 10 * msPerHour) 2024 6 2
        storeFullJune1 "h" "a"
      = .ok (pushPairUpsert storeFullJune1 (resolveScheduledDateFixed 2024 6 2)
          ⟨"h", "a", none⟩) :=
  ⟨(c6_explicit_past_date (tJune1 + 10 * msPerHour) 2024 5 31 storeFullJune1
      "h" "a").1 (by decide),
   ((c6_explicit_past_date (tJune1 + 10 * msPerHour) 2024 6 2 storeFullJune1
      "h" "a").2 (by decide)).1⟩

/-- C7 counterexample: a session that last played yesterday with
`currentStreak = 5` and `maxStreak = 5`.  `markAsPlayedToday` — the
completion handler — raises `currentStreak` to 6 but leaves `maxStreak`
at 5, while the claim demands that `maxStreak` become
`max(maxStreak, currentStreak) = 6` in every case. -/
theorem c7_counterexample :
    (markAsPlayedToday "2024-06-02" "2024-06-01" false
      { currentStreak := 5, maxStreak := 5,
        lastPlayedDate := some "2024-06-01" }).currentStreak = 6
    ∧ (markAsPlayedToday "2024-06-02" "2024-06-01" false
      { currentStreak := 5, maxStreak := 5,
        lastPlayedDate := some "2024-06-01" }).maxStreak = 5
    ∧ (markAsPlayedToday "2024-06-02" "2024-06-01" false
        { currentStreak := 5, maxStreak := 5,
          lastPlayedDate := some "2024-06-01" }).maxStreak
      ≠ max 5 (markAsPlayedToday "2024-06-02" "2024-06-01" false
          { currentStreak := 5, maxStreak := 5,
            lastPlayedDate := some "2024-06-01" }).currentStreak := by
  refine ⟨?_, ?_, ?_⟩ <;> decide

/-- C7 (amended): the specified streak transition — the three branches
on `lastPlayedDate` against the keys for yesterday and today, followed
by `maxStreak = max(maxStreak, currentStreak)`,
`maxPerfectStreak = max(maxPerfectStreak, perfectStreak)` and
`lastPlayedDate = today` — is performed in full by `updateUserStats`
(with wasPerfect meaning `correctAnswers === totalQuestions`), while
`markAsPlayedToday` performs the same branch transition and stamps
`lastPlayedDate` but leaves `maxStreak` and `maxPerfectStreak`
unchanged. -/
theorem c7_record_completion (t y : String) (c tot : Nat) (p : Bool)
    (s : Stats) :
    ((updateUserStats t y c tot s).currentStreak
        = (specRecordCompletion t y (c == tot) s).currentStreak
    ∧ (updateUserStats t y c tot s).perfectStreak
        = (specRecordCompletion t y (c == tot) s).perfectStreak
    ∧ (updateUserStats t y c tot s).maxStreak
        = (specRecordCompletion t y (c == tot) s).maxStreak
    ∧ (updateUserStats t y c tot s).maxPerfectStreak
        = (specRecordCompletion t y (c == tot) s).maxPerfectStreak
    ∧ (updateUserStats t y c tot s).lastPlayedDate
        = (specRecordCompletion t y (c == tot) s).lastPlayedDate)
    ∧ ((markAsPlayedToday t y p s).currentStreak
        = (specRecordCompletion t y p s).currentStreak
    ∧ (markAsPlayedToday t y p s).perfectStreak
        = (specRecordCompletion t y p s).perfectStreak
    ∧ (markAsPlayedToday t y p s).lastPlayedDate
        = (specRecordCompletion t y p s).lastPlayedDate
    ∧ (markAsPlayedToday t y p s).maxStreak = s.maxStreak
    ∧ (markAsPlayedToday t y p s).maxPerfectStreak = s.maxPerfectStreak) := by
  unfold updateUserStats specRecordCompletion markAsPlayedToday
  by_cases h1 : s.lastPlayedDate = some y <;>
    by_cases h2 : s.lastPlayedDate = some t <;>
      simp [h1, h2]

/-- C8: `getSelections` performs the lazy rollover idempotently.  When
the stored `lastSelectionMadeDate` differs from the key for today, the
saved document has empty selections and the stamped date and the
response is the empty list; when they agree the document and the stored
selections are returned unchanged; and a second call on the saved
document within the same day is a no-op returning the stored
selections. -/
theorem c8_getSelections_rollover (t : String) (s : Stats) :
    (s.lastSelectionMadeDate ≠ some t →
      (getSelections t s).1.selections = []
      ∧ (getSelections t s).1.lastSelectionMadeDate = some t
      ∧ (getSelections t s).2 = [])
    ∧ (s.lastSelectionMadeDate = some t → getSelections t s = (s, s.selections))
    ∧ getSelections t (getSelections t s).1
        = ((getSelections t s).1, (getSelections t s).1.selections) := by
  by_cases h : s.lastSelectionMadeDate = some t <;> simp [getSelections, h]

/-- Witness for C8: a session whose selections were made yesterday is
reset exactly once; the second same-day call returns the stored state
unchanged. -/
theorem c8_getSelections_rollover_witness :
    ((getSelections "2024-06-02"
        { selections := ["x"],
          lastSelectionMadeDate := some "2024-06-01" }).1.selections = []
    ∧ (getSelections "2024-06-02"
        { selections := ["x"],
          lastSelectionMadeDate := some "2024-06-01" }).1.lastSelectionMadeDate
        = some "2024-06-02"
    ∧ (getSelections "2024-06-02"
        { selections := ["x"],
          lastSelectionMadeDate := some "2024-06-01" }).2 = []) :=
  (c8_getSelections_rollover "2024-06-02"
    { selections := ["x"], lastSelectionMadeDate := some "2024-06-01" }).1
    (by decide)

/-- C9 counterexample: `updateUserStats` called with `correct = 6`,
`total = 5` on a fresh session.  The mistake count is
`max(total - correct, 0) = 0`, yet `perfectPuzzles` is not incremented,
because the code increments it only when
`correctAnswers === totalQuestions` — refuting "increments
perfectPuzzles exactly when mistakes == 0". -/
theorem c9_counterexample :
    (updateUserStats "2024-06-02" "2024-06-01" 6 5 {}).mostRecentScore = some 0
    ∧ (updateUserStats "2024-06-02" "2024-06-01" 6 5 {}).perfectPuzzles = 0
    ∧ (updateUserStats "2024-06-02" "2024-06-01" 6 5 {}).perfectPuzzles
        ≠ ({} : Stats).perfectPuzzles + 1 := by
  refine ⟨?_, ?_, ?_⟩ <;> decide

/-- C9 (amended): `updateUserStats` with arguments correct and total
increments `gamesPlayed` by 1, sets `mostRecentScore` to
`mistakes = max(total - correct, 0)` (truncated subtraction on
naturals), increments `mistakeDistribution[mistakes]` by 1 leaving every
other entry unchanged, increments `perfectPuzzles` exactly when
`correct = total`, and sets
`winPercentage = round(100 * perfectPuzzles / gamesPlayed)`; in
particular a first-ever game with correct = 3, total = 5 yields
`mistakeDistribution[2] = 1`, `gamesPlayed = 1` and
`winPercentage = 0`. -/
theorem c9_record_attempt (t y : String) (c tot : Nat) (s : Stats) :
    (updateUserStats t y c tot s).gamesPlayed = s.gamesPlayed + 1
    ∧ (updateUserStats t y c tot s).mostRecentScore = some (tot - c)
    ∧ (updateUserStats t y c tot s).mistakeDistribution (tot - c)
        = s.mistakeDistribution (tot - c) + 1
    ∧ (∀ k, k ≠ tot - c →
        (updateUserStats t y c tot s).mistakeDistribution k
          = s.mistakeDistribution k)
    ∧ (updateUserStats t y c tot s).perfectPuzzles
        = (if c = tot then s.perfectPuzzles + 1 else s.perfectPuzzles)
    ∧ (updateUserStats t y c tot s).winPercentage
        = jsRoundPct (updateUserStats t y c tot s).perfectPuzzles
            (s.gamesPlayed + 1)
    ∧ (updateUserStats "2024-06-02" "2024-06-01" 3 5 {}).mistakeDistribution 2
        = 1
    ∧ (updateUserStats "2024-06-02" "2024-06-01" 3 5 {}).gamesPlayed = 1
    ∧ (updateUserStats "2024-06-02" "2024-06-01" 3 5 {}).winPercentage = 0 := by
  refine ⟨?_, ?_, ?_, ?_, ?_, ?_, by decide, by decide, by decide⟩
  · simp [updateUserStats]
  · simp [updateUserStats]
  · simp [updateUserStats]
  · intro k hk
    simp [updateUserStats, hk]
  · simp [updateUserStats, beq_iff_eq]
  · simp [updateUserStats]

/-- Witness for C9 (amended): the untouched-entry part of the mistake
distribution at the first-game scenario, together with the scenario
facts themselves. -/
theorem c9_record_attempt_witness :
    (updateUserStats "2024-06-02" "2024-06-01" 3 5 {}).mistakeDistribution 3
      = ({} : Stats).mistakeDistribution 3
    ∧ (updateUserStats "2024-06-02" "2024-06-01" 3 5 {}).mistakeDistribution 2
      = 1
    ∧ (updateUserStats "2024-06-02" "2024-06-01" 3 5 {}).winPercentage = 0 :=
  ⟨(c9_record_attempt "2024-06-02" "2024-06-01" 3 5 {}).2.2.2.1 3 (by decide),
   by decide, by decide⟩

/-- C10: `checkIfPlayedToday` on a user with no Stats document lazily
creates one whose `lastPlayedDate` is already the key for today while
answering `hasPlayedToday = false` with 3 tries; a second call on the
same day, against the document just created, answers
`hasPlayedToday = true` although the user never completed a puzzle. -/
theorem c10_check_played_lazy_create (t : String) :
    (checkIfPlayedToday t none).2.hasPlayedToday = false
    ∧ (checkIfPlayedToday t none).2.triesRemaining = 3
    ∧ (∃ s, (checkIfPlayedToday t none).1 = some s
        ∧ s.lastPlayedDate = some t)
    ∧ (checkIfPlayedToday t ((checkIfPlayedToday t none).1)).2.hasPlayedToday
        = true := by
  refine ⟨rfl, rfl, ⟨_, rfl, rfl⟩, ?_⟩
  simp [checkIfPlayedToday]

end Artalyze
